import Mathlib

/-!
Verification development for the spot-hedging bot's risk and backtesting core.

The Python sources are shallowly embedded over `ℚ` (the code's floats become
exact rationals; every divergence the theorems exhibit is orders of magnitude
above float rounding).  Each definition mirrors one function of the source:

* `src/backtest/portfolio.py`   → `SimulatedPortfolio`, `on_fill`,
  `update_market_value`, `log_performance`, `direction_of`
* `src/backtest/execution.py`   → `execute_order`
* `src/backtest/backtester.py`  → `decide_trade` (the hedging decision taken
  inside `Backtester.run`'s loop), `backtest_init`, `run_backtest`,
  `generate_report`
* `src/core/risk_engine.py`     → `calculate_beta`, `calculate_historical_var`,
  `calculate_option_greeks`, `estimate_slippage_and_cost`

External collaborators (the exchange data fetcher, `py_vollib`'s Black-Scholes
routines, `numpy.sqrt`, `datetime.strptime`, Python's `float()` parser) are
passed in as explicit data or function parameters; nothing proved below depends
on their values.  Fallible Python code (exceptions) is embedded as `Option`,
with `none` standing for a raised exception or a returned `None`.
-/

set_option maxRecDepth 2000

namespace SpotHedge

/-- `direction_of` from `src/backtest/portfolio.py`: `1 if n > 0 else -1`. -/
def direction_of (n : ℚ) : ℚ := if n > 0 then 1 else -1

/-- The backtest trades the assets `'BTC_spot'` and `'BTC_perp'`; the source's
string key is embedded as this two-valued type, and Python's
`'perp' in asset` test becomes equality with `Asset.perp`. -/
inductive Asset where
  | spot
  | perp
deriving DecidableEq, Repr

/-- A fill event as returned by
`SimulatedExecutionHandler.execute_order` (`src/backtest/execution.py`). -/
structure Fill where
  asset : Asset
  quantity : ℚ
  fill_price : ℚ
  cost : ℚ
  commission : ℚ
  slippage_cost : ℚ
deriving DecidableEq, Repr

/-- State of `SimulatedPortfolio` (`src/backtest/portfolio.py`).  The holdings
dict holds at most the keys `'BTC_spot'` and `'BTC_perp'`; `none` models the
key being absent (deleted).  `history` keeps the `(timestamp, total_value)`
rows appended by `log_performance`. -/
structure SimulatedPortfolio where
  initial_capital : ℚ
  cash : ℚ
  spotHolding : Option ℚ
  perpHolding : Option ℚ
  positions_value : ℚ
  total_commissions : ℚ
  realized_hedge_pnl : ℚ
  perp_cost_basis : ℚ
  history : List (ℚ × ℚ)
deriving DecidableEq, Repr

/-- `SimulatedPortfolio.__init__`. -/
def initial_portfolio (initial_capital : ℚ) : SimulatedPortfolio :=
  { initial_capital := initial_capital
    cash := initial_capital
    spotHolding := none
    perpHolding := none
    positions_value := 0
    total_commissions := 0
    realized_hedge_pnl := 0
    perp_cost_basis := 0
    history := [] }

/-- `total_value` property: `cash + positions_value`. -/
def total_value (p : SimulatedPortfolio) : ℚ := p.cash + p.positions_value

/-- The float-comparison tolerance `1e-9` used when deleting a holding. -/
def holdingTol : ℚ := 1 / 1000000000

/-- `SimulatedPortfolio.on_fill` — the second (overriding) definition in
`src/backtest/portfolio.py`, the one Python actually binds.  Order of the
source: commissions, cash, the perp P&L-attribution block (realized P&L on a
reducing/reversing fill, then the cost-basis update), and finally the holdings
update with the `1e-9` deletion tolerance. -/
def on_fill (p : SimulatedPortfolio) (f : Fill) : SimulatedPortfolio :=
  let p1 := { p with
    total_commissions := p.total_commissions + f.commission
    cash := p.cash - (f.quantity * f.fill_price + f.commission) }
  let p2 :=
    if f.asset = Asset.perp then
      let current_holding := p1.perpHolding.getD 0
      let p1a :=
        if current_holding ≠ 0 ∧ decide (f.quantity > 0) ≠ decide (current_holding > 0) then
          let closed_quantity := min |f.quantity| |current_holding|
          let pnl := (f.fill_price - p1.perp_cost_basis) *
                       (-(direction_of current_holding) * closed_quantity)
          { p1 with realized_hedge_pnl := p1.realized_hedge_pnl + pnl }
        else p1
      let new_holding := current_holding + f.quantity
      if new_holding ≠ 0 then
        { p1a with perp_cost_basis :=
            (p1a.perp_cost_basis * current_holding + f.quantity * f.fill_price) / new_holding }
      else
        { p1a with perp_cost_basis := 0 }
    else p1
  match f.asset with
  | Asset.perp =>
      let h := p2.perpHolding.getD 0 + f.quantity
      { p2 with perpHolding := if |h| < holdingTol then none else some h }
  | Asset.spot =>
      let h := p2.spotHolding.getD 0 + f.quantity
      { p2 with spotHolding := if |h| < holdingTol then none else some h }

/-- `SimulatedPortfolio.update_market_value`: recompute `positions_value` from
the present holdings at the given prices (an absent key contributes nothing). -/
def update_market_value (p : SimulatedPortfolio) (price_spot price_perp : ℚ) :
    SimulatedPortfolio :=
  let v := (match p.spotHolding with | some q => q * price_spot | none => 0) +
           (match p.perpHolding with | some q => q * price_perp | none => 0)
  { p with positions_value := v }

/-- `SimulatedPortfolio.log_performance`: append `(timestamp, total_value)`. -/
def log_performance (p : SimulatedPortfolio) (timestamp : ℚ) : SimulatedPortfolio :=
  { p with history := p.history ++ [(timestamp, total_value p)] }

/-- Cost parameters of `SimulatedExecutionHandler`
(defaults `fee_rate = 0.0006`, `slippage_pct = 0.0005`). -/
structure ExecConfig where
  fee_rate : ℚ
  slippage_pct : ℚ
deriving DecidableEq, Repr

/-- `SimulatedExecutionHandler.execute_order` (`src/backtest/execution.py`):
adverse slippage, fill price, cost, commission on |cost|, explicit
slippage cost. -/
def execute_order (cfg : ExecConfig) (asset : Asset) (quantity : ℚ)
    (market_price : ℚ) : Fill :=
  let direction : ℚ := if quantity > 0 then 1 else -1
  let slippage_per_unit := market_price * cfg.slippage_pct * direction
  let fill_price := market_price + slippage_per_unit
  let cost := quantity * fill_price
  let commission := |cost| * cfg.fee_rate
  let slippage_cost := |quantity * slippage_per_unit|
  { asset := asset, quantity := quantity, fill_price := fill_price,
    cost := cost, commission := commission, slippage_cost := slippage_cost }

/-- The strategy dictionary consumed by `Backtester`
(cf. `run_backtest.py`): windows are bar counts. -/
structure StrategyConfig where
  initial_capital : ℚ
  initial_spot_holding : ℚ
  hedge_ratio : ℚ
  delta_threshold : ℚ
  use_regime_filter : Bool
  fast_ma : ℕ
  slow_ma : ℕ
deriving DecidableEq, Repr

/-- One row of the merged, timestamp-aligned historical series inside
`Backtester.run` (`pd.merge(spot, perp, on='timestamp')`).  The embedding
drives the backtester on series whose timestamp sets coincide, so the merge is
a pointwise zip and the original `spot_data`'s first/last closes equal the
merged `close_spot` first/last. -/
structure Row where
  timestamp : ℚ
  close_spot : ℚ
  close_perp : ℚ
deriving DecidableEq, Repr

/-- `pandas.Series.rolling(window=w).mean()` at index `i`: the mean of the
`w` entries ending at `i`, `NaN` (here `none`) while fewer than `w` exist. -/
def rollingMean (w : ℕ) (xs : List ℚ) (i : ℕ) : Option ℚ :=
  if 1 ≤ w ∧ w ≤ i + 1 then some (((xs.take (i + 1)).drop (i + 1 - w)).sum / (w : ℚ))
  else none

/-- Steps 3–7 of the loop body of `Backtester.run`
(`src/backtest/backtester.py`): target delta from the partial hedge ratio,
discrepancy against current delta, the regime-dependent trade trigger (with the
full force-close of the perp position in a hedge-off regime), sizing, and the
`0.001` dust filter.  Returns the contracts to trade, or `none` when no order
is sent. -/
def decide_trade (strat : StrategyConfig) (should_hedge_now : Bool)
    (spot_holding perp_holding price_spot price_perp : ℚ) : Option ℚ :=
  let spot_value := spot_holding * price_spot
  let target_delta := spot_value * (1 - strat.hedge_ratio)
  let perp_value := perp_holding * price_perp
  let current_delta := spot_value + perp_value
  let dtc := current_delta - target_delta
  let needAndDelta : Bool × ℚ :=
    if should_hedge_now then
      (decide (|dtc| > strat.delta_threshold), dtc)
    else
      if |perp_holding| > 1 / 1000 then (true, perp_value) else (false, dtc)
  if needAndDelta.1 then
    let contracts_to_trade := -needAndDelta.2 / price_perp
    if |contracts_to_trade| > 1 / 1000 then some contracts_to_trade else none
  else none

/-- The initial-holding setup at the top of `Backtester.run`: the spot quantity
is written into the holdings dict and its price at the first bar is deducted
straight from `cash` (no fill, no commission). -/
def backtest_init (strat : StrategyConfig) (initial_spot_price : ℚ) :
    SimulatedPortfolio :=
  let p := initial_portfolio strat.initial_capital
  { p with
    spotHolding := some strat.initial_spot_holding
    cash := p.cash - strat.initial_spot_holding * initial_spot_price }

/-- The regime flag of one bar: with the filter on, `should_hedge_now` is
`is_bearish = fast_ma < slow_ma` (pandas comparisons with `NaN` are `False`);
with the filter off it stays at its default `True`. -/
def should_hedge (strat : StrategyConfig) (fast slow : Option ℚ) : Bool :=
  if strat.use_regime_filter then
    match fast, slow with
    | some f, some s => decide (f < s)
    | _, _ => false
  else true

/-- One iteration of the `Backtester.run` loop at index `i`.  A bar whose slow
moving average is still `NaN` is skipped entirely (`continue`) when the filter
is enabled; otherwise the portfolio is marked to market and logged, the trade
decision is taken, and a decided order is executed and applied.  The second
component accumulates the `slippage_cost` of the executed fills (the source
drops this field; it is carried here only so the spec's
"commissions plus slippage" reading of total costs can be stated). -/
def backtest_step (strat : StrategyConfig) (exec : ExecConfig)
    (spotCloses : List ℚ) (st : SimulatedPortfolio × ℚ) (i : ℕ) (row : Row) :
    SimulatedPortfolio × ℚ :=
  let slow_ma := rollingMean strat.slow_ma spotCloses i
  let fast_ma := rollingMean strat.fast_ma spotCloses i
  if slow_ma.isNone ∧ strat.use_regime_filter then st
  else
    let p := update_market_value st.1 row.close_spot row.close_perp
    let p := log_performance p row.timestamp
    match decide_trade strat (should_hedge strat fast_ma slow_ma)
        (p.spotHolding.getD 0) (p.perpHolding.getD 0)
        row.close_spot row.close_perp with
    | none => (p, st.2)
    | some contracts =>
        let fill := execute_order exec Asset.perp contracts row.close_perp
        (on_fill p fill, st.2 + fill.slippage_cost)

/-- `Backtester.run` over the merged series: initial spot purchase, then the
bar-by-bar loop.  Returns the final portfolio together with the accumulated
slippage costs of all executed fills. -/
def run_backtest (strat : StrategyConfig) (exec : ExecConfig) (rows : List Row) :
    SimulatedPortfolio × ℚ :=
  let spotCloses := rows.map Row.close_spot
  let initial_spot_price := (rows.head?.map Row.close_spot).getD 0
  let p0 := backtest_init strat initial_spot_price
  rows.enum.foldl (fun st ir => backtest_step strat exec spotCloses st ir.1 ir.2) (p0, 0)

/-- The P&L-attribution lines of `Backtester.generate_report`. -/
structure AttributionReport where
  net_pnl : ℚ
  spot_pnl : ℚ
  hedge_pnl : ℚ
  total_costs : ℚ
deriving DecidableEq, Repr

/-- The attribution part of `Backtester.generate_report`:
`net_pnl = portfolio.total_value − initial_capital`;
`spot_pnl = (last spot close − first spot close) × initial_spot_holding`;
`hedge_pnl = realized_hedge_pnl` plus, when a perp position is still in the
holdings, its unrealized P&L against the last perp close;
`total_costs = total_commissions` (the source's comment: slippage is
implicitly included in P&L). -/
def generate_report (strat : StrategyConfig) (rows : List Row)
    (p : SimulatedPortfolio) : AttributionReport :=
  let initial_spot_price := (rows.head?.map Row.close_spot).getD 0
  let last_spot := (rows.getLast?.map Row.close_spot).getD 0
  let last_perp := (rows.getLast?.map Row.close_perp).getD 0
  let net := total_value p - p.initial_capital
  let spot_pnl := (last_spot - initial_spot_price) * strat.initial_spot_holding
  let hedge_pnl := p.realized_hedge_pnl +
    (match p.perpHolding with
     | some h => (last_perp - p.perp_cost_basis) * h
     | none => 0)
  { net_pnl := net, spot_pnl := spot_pnl, hedge_pnl := hedge_pnl,
    total_costs := p.total_commissions }

/-- Concrete strategy used in the counterexample runs: capital 100000, one
spot unit, hedge ratio 0.6, threshold 1000, regime filter with 2/3-bar MAs. -/
def cfgEx : StrategyConfig :=
  { initial_capital := 100000, initial_spot_holding := 1, hedge_ratio := 3/5,
    delta_threshold := 1000, use_regime_filter := true, fast_ma := 2, slow_ma := 3 }

/-- The execution handler's default frictions: 0.06% fee, 0.05% slippage. -/
def execEx : ExecConfig := { fee_rate := 3/5000, slippage_pct := 1/2000 }

/-- A five-bar aligned series (spot close = perp close each bar):
50000, 49000, 48000, 52000, 52000.  Bar 3 is bearish (fast MA 48500 < slow MA
49000), so the strategy shorts 0.6 perp; bar 4 turns bullish, so the hedge is
force-closed; bar 5 is quiet. -/
def rowsEx : List Row :=
  [ { timestamp := 1, close_spot := 50000, close_perp := 50000 },
    { timestamp := 2, close_spot := 49000, close_perp := 49000 },
    { timestamp := 3, close_spot := 48000, close_perp := 48000 },
    { timestamp := 4, close_spot := 52000, close_perp := 52000 },
    { timestamp := 5, close_spot := 52000, close_perp := 52000 } ]

/-! ### Risk engine (`src/core/risk_engine.py`) -/

/-- `pandas.Series.pct_change().dropna()`: the list of simple returns
`(x_t − x_{t−1}) / x_{t−1}` of consecutive closes. -/
def pct_change (xs : List ℚ) : List ℚ :=
  (xs.zip xs.tail).map (fun ab => (ab.2 - ab.1) / ab.1)

/-- `pct_change` applied to both columns of a merged two-column frame, with
`dropna()` removing the first (all-`NaN`) row. -/
def pct_change_pairs (xs : List (ℚ × ℚ)) : List (ℚ × ℚ) :=
  (xs.zip xs.tail).map (fun ab =>
    ((ab.2.1 - ab.1.1) / ab.1.1, (ab.2.2 - ab.1.2) / ab.1.2))

/-- Arithmetic mean of a list. -/
def listMean (xs : List ℚ) : ℚ := xs.sum / (xs.length : ℚ)

/-- The sample covariance (`ddof = 1`, pandas' `cov()` default) of two
equally long columns. -/
def sample_cov (xs ys : List ℚ) : ℚ :=
  let mx := listMean xs
  let my := listMean ys
  ((xs.zip ys).map (fun p => (p.1 - mx) * (p.2 - my))).sum / ((xs.length : ℚ) - 1)

/-- The post-fetch core of `RiskEngine.calculate_beta`: given the
timestamp-merged spot/perp closes (the fetch, the cache and its TTL are
external I/O), return the conservative default `1.0` when fewer than 30
aligned rows exist, otherwise `Cov(spot, perp) / Var(perp)` over daily
returns. -/
def calculate_beta (merged : List (ℚ × ℚ)) : ℚ :=
  if merged.length < 30 then 1
  else
    let returns := pct_change_pairs merged
    let rs := returns.map Prod.fst
    let rp := returns.map Prod.snd
    sample_cov rs rp / sample_cov rp rp

/-- The `'spot' | 'perp' | 'option'` position-type tag. -/
inductive PosType where
  | spot
  | perp
  | opt
deriving DecidableEq, Repr

/-- One entry of the portfolio list passed to the risk methods. -/
structure Position where
  ptype : PosType
  size : ℚ
  asset : String
deriving DecidableEq, Repr

/-- `prices.get(key, 0)` over the prices dict. -/
def lookupPrice (prices : List (String × ℚ)) (key : String) : ℚ :=
  ((prices.find? (fun e => e.1 = key)).map Prod.snd).getD 0

/-- The spot-only portfolio valuation at the top of
`RiskEngine.calculate_historical_var`. -/
def var_total_value (portfolio : List Position) (prices : List (String × ℚ)) : ℚ :=
  portfolio.foldl
    (fun acc pos =>
      if pos.ptype = PosType.spot then
        acc + pos.size * lookupPrice prices (pos.asset ++ "/USDT")
      else acc) 0

/-- Insertion into an ascending-sorted list. -/
def insert_sorted (x : ℚ) : List ℚ → List ℚ
  | [] => [x]
  | y :: ys => if x ≤ y then x :: y :: ys else y :: insert_sorted x ys

/-- Ascending insertion sort. -/
def sort_asc (xs : List ℚ) : List ℚ := xs.foldr insert_sorted []

/-- `pandas.Series.quantile(q)` with the default linear interpolation:
position `q·(n−1)` in the ascending order statistics, linearly interpolated
between the two neighbouring values. -/
def quantile_linear (q : ℚ) (xs : List ℚ) : ℚ :=
  let s := sort_asc xs
  let n := s.length
  if n = 0 then 0
  else
    let pos := q * ((n : ℚ) - 1)
    let lo : ℕ := pos.floor.toNat
    let frac := pos - (lo : ℚ)
    let vlo := s.getD lo 0
    let vhi := s.getD (min (lo + 1) (n - 1)) 0
    vlo + frac * (vhi - vlo)

/-- `RiskEngine.calculate_historical_var`: value the portfolio (spot legs
only), return `0.0` immediately when that value is zero, `none` when the
historical fetch fails (`hist = none`) or comes back empty, and otherwise the
`(1 − confidence)`-quantile of the simulated daily P&L series
(returns × total value). -/
def calculate_historical_var (portfolio : List Position)
    (prices : List (String × ℚ)) (hist : Option (List ℚ))
    (confidence_level : ℚ) : Option ℚ :=
  let totalValue := var_total_value portfolio prices
  if totalValue = 0 then some 0
  else
    match hist with
    | none => none
    | some closes =>
        if closes.isEmpty then none
        else
          let simulated_pnl := (pct_change closes).map (· * totalValue)
          some (quantile_linear (1 - confidence_level) simulated_pnl)

/-- The exchange-supplied greeks block of an option ticker
(`ticker['greeks']` / `ticker['info']['greeks']`); `none` on a field models a
missing key (the source defaults it to `0`). -/
structure GreeksData where
  delta : Option ℚ
  gamma : Option ℚ
  vega : Option ℚ
  theta : Option ℚ
deriving DecidableEq, Repr

/-- The option ticker payload as read by `calculate_option_greeks`.  An
`Option` field is `none` when the key is missing; for the dict-valued
`greeks` fields `none` also covers an empty (hence falsy) dict. -/
structure OptionTicker where
  info_instrument_name : Option String
  symbol : Option String
  greeks : Option GreeksData
  info_greeks : Option GreeksData
  markPrice : Option ℚ
  info_mark_price : Option ℚ
deriving DecidableEq, Repr

/-- The result dict of `calculate_option_greeks`. -/
structure Greeks where
  delta : ℚ
  gamma : ℚ
  vega : ℚ
  theta : ℚ
  price : ℚ
deriving DecidableEq, Repr

/-- The pre-trained GARCH model object (external, loaded with `joblib`); its
one-step forecast variance is its interface. -/
structure GarchModel where
  next_day_variance : ℚ
deriving DecidableEq, Repr

/-- External collaborators of `calculate_option_greeks`: the `py_vollib`
Black-Scholes routines (flag is `true` for a put), `numpy.sqrt`, Python's
`float()` literal parser, `datetime.strptime` mapped to the expiry's epoch
seconds (`none` models a `ValueError`), and the wall clock. -/
structure Externals where
  bs_price : Bool → ℚ → ℚ → ℚ → ℚ → ℚ → ℚ
  bs_delta : Bool → ℚ → ℚ → ℚ → ℚ → ℚ → ℚ
  bs_gamma : Bool → ℚ → ℚ → ℚ → ℚ → ℚ → ℚ
  bs_vega : Bool → ℚ → ℚ → ℚ → ℚ → ℚ → ℚ
  bs_theta : Bool → ℚ → ℚ → ℚ → ℚ → ℚ → ℚ
  sqrt : ℚ → ℚ
  parse_float : String → Option ℚ
  strptime_epoch : String → Option ℚ
  now_epoch : ℚ

/-- Python truthiness-`or` on optional strings (an empty string is falsy). -/
def truthy_or_str (a b : Option String) : Option String :=
  match a with
  | some s => if s.isEmpty then b else some s
  | none => b

/-- Python truthiness-`or` on optional numbers (`0.0` is falsy). -/
def truthy_or_num (a b : Option ℚ) : Option ℚ :=
  match a with
  | some x => if x = 0 then b else some x
  | none => b

/-- `RiskEngine.get_forecasted_volatility`: `none` if no model is loaded,
otherwise `sqrt(next-day variance) / 100 × sqrt(365)` (annualized). -/
def get_forecasted_volatility (E : Externals) (model : Option GarchModel) :
    Option ℚ :=
  match model with
  | none => none
  | some m =>
      let daily_vol_pct := E.sqrt m.next_day_variance
      let daily_vol := daily_vol_pct / 100
      some (daily_vol * E.sqrt 365)

/-- `RiskEngine.calculate_option_greeks`.  Resolve the instrument name
(`info.instrument_name`, else `symbol`, both by truthiness); take the
ML path only when `use_ml_vol` is set **and** the GARCH model object is
truthy; on the ML path fail on a falsy forecast, an unparsable instrument
name, a `strptime` failure or a negative time to expiry, otherwise price via
Black-Scholes with vega scaled by 1/100 and theta by 1/365; on the default
path read the exchange greeks (falsy dict → `none`), the mark price
(truthiness fallback to `info.mark_price`, `None` → `none`), and convert
the mark price to USD.  Any exception returns `none` (the outer
`except Exception`). -/
def calculate_option_greeks (E : Externals) (model : Option GarchModel)
    (underlying_price : ℚ) (ticker : OptionTicker) (use_ml_vol : Bool) :
    Option Greeks :=
  match truthy_or_str ticker.info_instrument_name ticker.symbol with
  | none => none
  | some instrument_name =>
      if use_ml_vol && model.isSome then
        match get_forecasted_volatility E model with
        | none => none
        | some forecasted_vol =>
            if forecasted_vol = 0 then none
            else
              let sigma := forecasted_vol
              let S := underlying_price
              let parts := instrument_name.splitOn "-"
              match parts.get? 1, parts.get? 2, parts.get? 3 with
              | some expiry_str, some strike_str, some type_str =>
                  match E.parse_float strike_str with
                  | none => none
                  | some K =>
                      let is_put := type_str = "P"
                      let r : ℚ := 0
                      match E.strptime_epoch expiry_str with
                      | none => none
                      | some expiry_epoch =>
                          let time_to_expiry_seconds := expiry_epoch - E.now_epoch
                          if time_to_expiry_seconds < 0 then none
                          else
                            let T := time_to_expiry_seconds / ((1461/4 : ℚ) * 24 * 60 * 60)
                            some
                              { delta := E.bs_delta is_put S K T r sigma
                                gamma := E.bs_gamma is_put S K T r sigma
                                vega := E.bs_vega is_put S K T r sigma / 100
                                theta := E.bs_theta is_put S K T r sigma / 365
                                price := E.bs_price is_put S K T r sigma }
              | _, _, _ => none
      else
        match (match ticker.greeks with | some g => some g | none => ticker.info_greeks) with
        | none => none
        | some greeks_data =>
            match truthy_or_num ticker.markPrice ticker.info_mark_price with
            | none => none
            | some mark_price_in_btc =>
                some
                  { delta := greeks_data.delta.getD 0
                    gamma := greeks_data.gamma.getD 0
                    vega := greeks_data.vega.getD 0
                    theta := greeks_data.theta.getD 0
                    price := mark_price_in_btc * underlying_price }

/-- An order-book snapshot: price/size levels, best first. -/
structure OrderBook where
  asks : List (ℚ × ℚ)
  bids : List (ℚ × ℚ)
deriving DecidableEq, Repr

/-- Trade side. -/
inductive Side where
  | buy
  | sell
deriving DecidableEq, Repr

/-- The result dict of `estimate_slippage_and_cost`. -/
structure CostAnalysis where
  avg_fill_price : ℚ
  total_cost_usd : ℚ
  slippage_usd : ℚ
deriving DecidableEq, Repr

/-- The book-walking `for` loop of `estimate_slippage_and_cost`: returns the
accumulated notional and the unfilled remainder (the loop breaks once the
remainder is non-positive). -/
def walkBook : List (ℚ × ℚ) → ℚ → ℚ → ℚ × ℚ
  | [], total, remaining => (total, remaining)
  | (price, volume) :: rest, total, remaining =>
      if remaining ≤ 0 then (total, remaining)
      else
        let trade_volume := min remaining volume
        walkBook rest (total + trade_volume * price) (remaining - trade_volume)

/-- The mid-price read from the top of both book sides
(`(asks[0][0] + bids[0][0]) / 2`). -/
def mid_price (book : OrderBook) : ℚ :=
  ((book.asks.headD (0, 0)).1 + (book.bids.headD (0, 0)).1) / 2

/-- `RiskEngine.estimate_slippage_and_cost`: walk the relevant side for
`|size|`, extrapolate an unfilled remainder at the last level's price
(`IndexError`, hence `none`, on an empty side), divide by `|size|`
(`ZeroDivisionError`, hence `none`, when `size = 0`), and report the average
fill price, the notional, and `(avg − mid) × |size|` as slippage (`none`
again if either best level needed for the mid is missing). -/
def estimate_slippage_and_cost (book : OrderBook) (size : ℚ) (side : Side) :
    Option CostAnalysis :=
  let book_side := match side with | Side.buy => book.asks | Side.sell => book.bids
  let walked := walkBook book_side 0 |size|
  let totalCost? : Option ℚ :=
    if walked.2 > 0 then
      match book_side.getLast? with
      | none => none
      | some level => some (walked.1 + walked.2 * level.1)
    else some walked.1
  match totalCost? with
  | none => none
  | some total_cost =>
      if size = 0 then none
      else
        let avg_fill_price := total_cost / |size|
        match book.asks.head?, book.bids.head? with
        | some _, some _ =>
            some { avg_fill_price := avg_fill_price
                   total_cost_usd := total_cost
                   slippage_usd := (avg_fill_price - mid_price book) * |size| }
        | _, _ => none

/-- Spec-side description of the §4.5 book walk ("fills `min(remaining,
level size)` at each level until the size is filled; if book depth is less
than the requested size, the remainder is priced at the last available
level"), written as a direct recursion carrying the last level price seen.
Stated only to be compared against the source's `walkBook` loop. -/
def specFillNotional : List (ℚ × ℚ) → ℚ → ℚ → ℚ
  | [], remaining, last_price => remaining * last_price
  | (price, volume) :: rest, remaining, _ =>
      if remaining ≤ 0 then 0
      else min remaining volume * price +
             specFillNotional rest (remaining - min remaining volume) price

/-- The §8 example book for the cost estimator: asks `[(100,1),(101,2)]`. -/
def bookEx : OrderBook := { asks := [(100, 1), (101, 2)], bids := [(99, 1)] }

/-- A book on which an adverse sell shows the sign of the reported slippage:
best ask 101, bids `[(99,1),(98,2)]`. -/
def bookSell : OrderBook := { asks := [(101, 1)], bids := [(99, 1), (98, 2)] }

/-- A concrete instantiation of the external collaborators (the proved facts
never depend on these values). -/
def extEx : Externals :=
  { bs_price := fun _ _ _ _ _ _ => 0
    bs_delta := fun _ _ _ _ _ _ => 0
    bs_gamma := fun _ _ _ _ _ _ => 0
    bs_vega := fun _ _ _ _ _ _ => 0
    bs_theta := fun _ _ _ _ _ _ => 0
    sqrt := fun _ => 0
    parse_float := fun _ => none
    strptime_epoch := fun _ => none
    now_epoch := 0 }

/-- An option ticker carrying exchange-supplied greeks (delta 0.5) and a mark
price of 0.05 BTC. -/
def tickerEx : OptionTicker :=
  { info_instrument_name := some "BTC-26DEC25-50000-P"
    symbol := none
    greeks := some { delta := some (1/2), gamma := some 0, vega := some 0, theta := some 0 }
    info_greeks := none
    markPrice := some (1/20)
    info_mark_price := none }

/-- A portfolio long 1.0 perp contract at cost basis 100. -/
def portfolioLongPerp : SimulatedPortfolio :=
  { initial_portfolio 1000 with perpHolding := some 1, perp_cost_basis := 100 }

/-- A fill selling that 1.0 perp contract at 110 (commission-free, so the
cash and P&L arithmetic is bare). -/
def fillSellPerp : Fill :=
  { asset := Asset.perp, quantity := -1, fill_price := 110, cost := -110,
    commission := 0, slippage_cost := 0 }

/-! ### Helper lemmas -/

theorem walkBook_shift (levels : List (ℚ × ℚ)) (t r : ℚ) :
    walkBook levels t r = (t + (walkBook levels 0 r).1, (walkBook levels 0 r).2) := by
  induction levels generalizing t r with
  | nil => simp [walkBook]
  | cons hd tl ih =>
      obtain ⟨p, v⟩ := hd
      by_cases hr : r ≤ 0
      · simp [walkBook, hr]
      · simp only [walkBook, if_neg hr]
        rw [ih (t + min r v * p), ih (0 + min r v * p)]
        simp [add_assoc]

theorem walkBook_zero (levels : List (ℚ × ℚ)) (t : ℚ) :
    walkBook levels t 0 = (t, 0) := by
  cases levels with
  | nil => rfl
  | cons hd tl => obtain ⟨p, v⟩ := hd; simp [walkBook]

/-- The source's imperative book walk agrees with the spec's recursive
description: the notional of filling `r` against `levels`, extrapolating any
remainder at the last level, is the walked notional plus the remainder priced
at the last level. -/
theorem specFillNotional_eq_walk (levels : List (ℚ × ℚ)) (r lp d : ℚ)
    (hr : 0 ≤ r) :
    specFillNotional levels r lp =
      (walkBook levels 0 r).1 +
        (if (walkBook levels 0 r).2 > 0
         then (walkBook levels 0 r).2 * (levels.getLastD (lp, d)).1 else 0) := by
  induction levels generalizing r lp d with
  | nil =>
      simp only [specFillNotional, walkBook, List.getLastD]
      rcases eq_or_lt_of_le hr with h | h
      · simp [← h]
      · simp [h]
  | cons hd tl ih =>
      obtain ⟨p, v⟩ := hd
      by_cases h0 : r ≤ 0
      · have hr0 : r = 0 := le_antisymm h0 hr
        subst hr0
        simp [specFillNotional, walkBook]
      · push_neg at h0
        have hmin : min r v ≤ r := min_le_left r v
        have hrem : 0 ≤ r - min r v := sub_nonneg.mpr hmin
        simp only [specFillNotional, walkBook, if_neg (not_le.mpr h0),
          List.getLastD_cons]
        rw [walkBook_shift, ih (r - min r v) p v hrem]
        ring

/-! ### Claim theorems -/

/-- C1: the claimed invariant `pnl_from_spot + pnl_from_hedges − total_costs
== net_pnl` (within 1e-6 relative tolerance) fails on a concrete backtest run:
on the five-bar series `rowsEx` (hedge opened in a bearish bar, force-closed
in a bullish one) the reported sum misses the ledger net P&L by 4860 — under
the code's `total_costs` (commissions only) and also under the claim's
reading (commissions plus slippage). -/
theorem c1_attribution_identity_fails :
    ¬ |(generate_report cfgEx rowsEx (run_backtest cfgEx execEx rowsEx).1).spot_pnl +
        (generate_report cfgEx rowsEx (run_backtest cfgEx execEx rowsEx).1).hedge_pnl -
        (generate_report cfgEx rowsEx (run_backtest cfgEx execEx rowsEx).1).total_costs -
        (generate_report cfgEx rowsEx (run_backtest cfgEx execEx rowsEx).1).net_pnl| ≤
      |(generate_report cfgEx rowsEx (run_backtest cfgEx execEx rowsEx).1).net_pnl| / 1000000 ∧
    ¬ |(generate_report cfgEx rowsEx (run_backtest cfgEx execEx rowsEx).1).spot_pnl +
        (generate_report cfgEx rowsEx (run_backtest cfgEx execEx rowsEx).1).hedge_pnl -
        ((generate_report cfgEx rowsEx (run_backtest cfgEx execEx rowsEx).1).total_costs +
          (run_backtest cfgEx execEx rowsEx).2) -
        (generate_report cfgEx rowsEx (run_backtest cfgEx execEx rowsEx).1).net_pnl| ≤
      |(generate_report cfgEx rowsEx (run_backtest cfgEx execEx rowsEx).1).net_pnl| / 1000000 := by
  with_unfolding_all decide

/-- C2: on a fill that closes a long 1.0 perp position (cost basis 100) at
110, `on_fill` books −10 of realized P&L — the **negative** of the claimed
`(fill_price − cost_basis) × sign(existing_position) × closed_quantity = +10`
(the code multiplies by `-direction_of(current_holding)`). -/
theorem c2_realized_pnl_sign_flipped :
    (on_fill portfolioLongPerp fillSellPerp).realized_hedge_pnl = -10 ∧
    (fillSellPerp.fill_price - portfolioLongPerp.perp_cost_basis) *
        direction_of (portfolioLongPerp.perpHolding.getD 0) *
        min |fillSellPerp.quantity| |portfolioLongPerp.perpHolding.getD 0| = 10 ∧
    (on_fill portfolioLongPerp fillSellPerp).realized_hedge_pnl ≠ 10 := by
  with_unfolding_all decide

/-- C3 (counterexample): the claim's second half — "no operation other than
applying a fill ever changes the portfolio's cash" — is false: the
initial-holding step at the top of `Backtester.run` deducts the spot purchase
straight from `cash` without any fill. -/
theorem c3_init_mutates_cash :
    (backtest_init cfgEx 50000).cash ≠ (initial_portfolio cfgEx.initial_capital).cash ∧
    (backtest_init cfgEx 50000).total_commissions =
      (initial_portfolio cfgEx.initial_capital).total_commissions := by
  with_unfolding_all decide

/-- C3 (amended): every fill changes cash by exactly
`−(quantity × fill_price + commission)`, and no `SimulatedPortfolio` method
other than `on_fill` touches cash (marking to market and performance logging
preserve it); the exception is the backtester's initialization, which debits
the initial spot purchase directly (see the counterexample). -/
theorem c3_cash_changes_only_on_fill :
    (∀ (p : SimulatedPortfolio) (f : Fill),
        (on_fill p f).cash = p.cash - (f.quantity * f.fill_price + f.commission)) ∧
    (∀ (p : SimulatedPortfolio) (ps pp : ℚ), (update_market_value p ps pp).cash = p.cash) ∧
    (∀ (p : SimulatedPortfolio) (t : ℚ), (log_performance p t).cash = p.cash) := by
  refine ⟨fun p f => ?_, fun p ps pp => rfl, fun p t => rfl⟩
  unfold on_fill
  cases f.asset <;> dsimp only <;> split_ifs <;> rfl

/-- C4 (counterexample): with spot holding 1.0 at 50000, perp price 50000,
hedge ratio 0.6, threshold 1000 and no perp holding, the backtest loop's
decision logic does **not** trade −0.4 derivative units. -/
theorem c4_not_minus_point_four :
    decide_trade cfgEx true 1 0 50000 50000 ≠ some (-(2/5) : ℚ) := by
  with_unfolding_all decide

/-- C4 (amended): at that input the engine trades −0.6 derivative units: the
code keeps `(1 − hedge_ratio)` of the spot delta, i.e. targets a hedge value
of `−spot_value × hedge_ratio = −30000`, so it shorts 30000/50000 = 0.6
contracts (the spec's own formula gives the same; only the spec's worked
example says −0.4). -/
theorem c4_trades_minus_point_six :
    decide_trade cfgEx true 1 0 50000 50000 = some (-(3/5) : ℚ) := by
  with_unfolding_all decide

/-- C5 (counterexample): with `use_ml_vol = true` but no GARCH model loaded,
`calculate_option_greeks` does **not** return none: on a ticker carrying
exchange greeks and a mark price it silently produces the exchange-quoted
greeks (delta 0.5, price 0.05 × 50000 = 2500). -/
theorem c5_no_model_still_returns_greeks :
    calculate_option_greeks extEx none 50000 tickerEx true =
      some { delta := 1/2, gamma := 0, vega := 0, theta := 0, price := 2500 } ∧
    calculate_option_greeks extEx none 50000 tickerEx true ≠ none := by
  have h : calculate_option_greeks extEx none 50000 tickerEx true =
      some { delta := 1/2, gamma := 0, vega := 0, theta := 0, price := 2500 } := by
    unfold calculate_option_greeks truthy_or_str
    norm_num [tickerEx, truthy_or_num, String.isEmpty]
    rw [if_neg (by decide)]
  refine ⟨h, ?_⟩
  rw [h]
  exact fun hc => Option.noConfusion hc

/-- C5 (amended): when `use_ml_vol` is requested but the volatility model is
unavailable, the pricing call behaves exactly like the default
exchange-quoted path (the `use_ml_vol and self.garch_model` guard falls
through); it returns none only when that path does too. -/
theorem c5_falls_back_to_exchange_path (E : Externals) (S : ℚ) (t : OptionTicker) :
    calculate_option_greeks E none S t true = calculate_option_greeks E none S t false := by
  unfold calculate_option_greeks
  cases truthy_or_str t.info_instrument_name t.symbol <;> rfl

/-- C6 (counterexample): on an all-cash (zero-exposure) portfolio,
`calculate_historical_var` returns `0.0`, not "unavailable" — the claim's
"returns none" is false (the spec's §8 example describes the code). -/
theorem c6_zero_portfolio_returns_zero :
    calculate_historical_var [] [] (some [100, 101, 99]) (95/100) = some 0 ∧
    calculate_historical_var [] [] (some [100, 101, 99]) (95/100) ≠ none := by
  constructor <;> with_unfolding_all decide

/-- C6 (amended): whenever the spot-only valuation of the portfolio is zero,
`calculate_historical_var` returns `0.0` (it never reaches the data fetch);
"unavailable" arises only from a failed or empty historical fetch. -/
theorem c6_zero_value_yields_zero (portfolio : List Position)
    (prices : List (String × ℚ)) (hist : Option (List ℚ)) (confidence : ℚ)
    (h : var_total_value portfolio prices = 0) :
    calculate_historical_var portfolio prices hist confidence = some 0 := by
  simp [calculate_historical_var, h]

/-- C6 witness: the empty portfolio has zero value and (even with no
historical data at all) gets VaR `0.0`. -/
theorem c6_zero_value_witness :
    var_total_value [] [] = 0 ∧
    calculate_historical_var [] [] none (95/100) = some 0 :=
  ⟨by with_unfolding_all decide, c6_zero_value_yields_zero [] [] none (95/100) (by with_unfolding_all decide)⟩

/-- C7: with fewer than 30 timestamp-aligned historical closes,
`calculate_beta` returns exactly the conservative default 1.0, never the
covariance estimate. -/
theorem c7_beta_default (merged : List (ℚ × ℚ)) (h : merged.length < 30) :
    calculate_beta merged = 1 := by
  unfold calculate_beta
  rw [if_pos h]

/-- C7 witness: with only 10 aligned bars the returned beta is exactly 1. -/
theorem c7_beta_default_witness :
    (List.replicate 10 ((1 : ℚ), (2 : ℚ))).length < 30 ∧
    calculate_beta (List.replicate 10 ((1 : ℚ), (2 : ℚ))) = 1 :=
  ⟨by with_unfolding_all decide, c7_beta_default _ (by with_unfolding_all decide)⟩

/-- C8: for a nonzero buy against a non-empty book, the estimator's average
fill price is exactly the spec's walk — fill `min(remaining, level size)` at
each ask in order, price any unfilled remainder at the last level — divided
by `|size|`. -/
theorem c8_avg_fill_price_is_spec_walk (book : OrderBook) (size : ℚ)
    (h0 : size ≠ 0) (ha : book.asks ≠ []) (hb : book.bids ≠ []) :
    (estimate_slippage_and_cost book size Side.buy).map CostAnalysis.avg_fill_price =
      some (specFillNotional book.asks |size| 0 / |size|) := by
  obtain ⟨asks, bids⟩ := book
  obtain ⟨a, as, rfl⟩ := List.exists_cons_of_ne_nil ha
  obtain ⟨b, bs, rfl⟩ := List.exists_cons_of_ne_nil hb
  simp only [estimate_slippage_and_cost]
  rw [specFillNotional_eq_walk (a :: as) |size| 0 0 (abs_nonneg size)]
  by_cases hrem : (walkBook (a :: as) 0 |size|).2 > 0
  · rw [if_pos hrem]
    have hne : (a :: as) ≠ ([] : List (ℚ × ℚ)) := by simp
    have hlast : (a :: as).getLast? = some ((a :: as).getLast hne) :=
      List.getLast?_eq_getLast _ hne
    have hlastD : ((a :: as).getLastD ((0 : ℚ), (0 : ℚ))) = (a :: as).getLast hne := by
      rw [List.getLastD_eq_getLast?, hlast]; rfl
    rw [hlast, hlastD]
    simp [h0, hrem]
  · rw [if_neg hrem]
    simp [h0, hrem]

/-- C8 witness: the §8 example — asks `[(100,1),(101,2)]`, buy size 2 —
yields an average fill price of 100.5. -/
theorem c8_example_avg_fill_price :
    (estimate_slippage_and_cost bookEx 2 Side.buy).map CostAnalysis.avg_fill_price =
      some (201/2) := by
  have h := c8_avg_fill_price_is_spec_walk bookEx 2 (by norm_num) (by with_unfolding_all decide) (by with_unfolding_all decide)
  rw [h]
  with_unfolding_all decide

/-- C9 (counterexample): selling 2 against `bookSell` (bids 99×1, 98×2, best
ask 101) fills at an average of 98.5 versus a mid of 100, an adverse move —
yet the reported slippage is −3, not the claimed `(mid − avg) × |size| = +3`:
the code does not sign slippage by trade direction. -/
theorem c9_sell_slippage_not_direction_signed :
    estimate_slippage_and_cost bookSell 2 Side.sell =
      some { avg_fill_price := 197/2, total_cost_usd := 197, slippage_usd := -3 } ∧
    (-3 : ℚ) ≠ (mid_price bookSell - 197/2) * |(2 : ℚ)| := by
  constructor <;> with_unfolding_all decide

/-- C9 (amended): every successful cost estimate reports
`slippage = (avg_fill_price − mid_price) × |size|` for **both** sides, so an
adverse sell (average below mid) comes out negative while an adverse buy
comes out positive. -/
theorem c9_slippage_same_formula_both_sides (book : OrderBook) (size : ℚ)
    (side : Side) (r : CostAnalysis)
    (h : estimate_slippage_and_cost book size side = some r) :
    r.slippage_usd = (r.avg_fill_price - mid_price book) * |size| := by
  simp only [estimate_slippage_and_cost] at h
  split at h
  · exact Option.noConfusion h
  · split at h
    · exact Option.noConfusion h
    · split at h
      · injection h with h
        subst h
        rfl
      · exact Option.noConfusion h

/-- C9 witness: the amended formula at the `bookSell` sell:
−3 = (98.5 − 100) × 2. -/
theorem c9_slippage_formula_witness :
    ({ avg_fill_price := 197/2, total_cost_usd := 197, slippage_usd := -3 } :
        CostAnalysis).slippage_usd =
      (({ avg_fill_price := 197/2, total_cost_usd := 197, slippage_usd := -3 } :
        CostAnalysis).avg_fill_price - mid_price bookSell) * |(2 : ℚ)| :=
  c9_slippage_same_formula_both_sides bookSell 2 Side.sell _ (by with_unfolding_all decide)

/-- C10: under the implicit preconditions — nonzero size and both book sides
non-empty — `estimate_slippage_and_cost` always succeeds (no division by
zero, no empty-list indexing); and with size 0 the division by `abs(size)`
always fails, whatever the book. -/
theorem c10_total_under_preconditions :
    (∀ (book : OrderBook) (size : ℚ) (side : Side),
        size ≠ 0 → book.asks ≠ [] → book.bids ≠ [] →
        (estimate_slippage_and_cost book size side).isSome = true) ∧
    (∀ (book : OrderBook) (side : Side),
        estimate_slippage_and_cost book 0 side = none) := by
  constructor
  · rintro ⟨asks, bids⟩ size side h0 ha hb
    obtain ⟨a, as, rfl⟩ := List.exists_cons_of_ne_nil ha
    obtain ⟨b, bs, rfl⟩ := List.exists_cons_of_ne_nil hb
    cases side
    case buy =>
      simp only [estimate_slippage_and_cost]
      rw [List.getLast?_eq_getLast (a :: as) (by simp)]
      by_cases hrem : (walkBook (a :: as) 0 |size|).2 > 0
      · rw [if_pos hrem]
        simp [h0]
      · rw [if_neg hrem]
        simp [h0]
    case sell =>
      simp only [estimate_slippage_and_cost]
      rw [List.getLast?_eq_getLast (b :: bs) (by simp)]
      by_cases hrem : (walkBook (b :: bs) 0 |size|).2 > 0
      · rw [if_pos hrem]
        simp [h0]
      · rw [if_neg hrem]
        simp [h0]
  · intro book side
    simp [estimate_slippage_and_cost, walkBook_zero]

/-- C10 witness: a concrete in-precondition call succeeds. -/
theorem c10_totality_witness :
    (estimate_slippage_and_cost bookSell 2 Side.sell).isSome = true :=
  c10_total_under_preconditions.1 bookSell 2 Side.sell (by norm_num) (by with_unfolding_all decide) (by with_unfolding_all decide)

end SpotHedge
